import Mathlib

/-!
Shallow embedding of the news-aggregator pipeline.

The program (src/api/process-article.js, with near-identical variants in
src/server.js and src/unnamed/part_000, part_001) serves one request:

  1. fetchArticleDetails: GET the headlines feed (8 s timeout in the api
     variant), filter articles whose url is truthy, includes
     "theverge.com" and is not the bare homepage, then pick
     validArticles[floor(random * length)]. An empty filtered list throws
     "No valid articles found." INSIDE the try block, so the catch wraps
     every failure into "Failed to fetch valid article details.".
  2. summarizeArticle: GET the article page (8 s timeout), extract the
     text of all p elements, trim it, send it to the language model
     (max_tokens 1000, no timeout option). Any failure in the try block
     becomes "Failed to summarize article.". The trimmed model content is
     returned with no emptiness check.
  3. convertSummaryToSpeech: POST the summary to the TTS endpoint
     (8 s timeout), write output.mp3, return that path; any failure
     becomes "Failed to convert summary to speech.".
  4. generateQuizQuestions: one more language-model call (max_tokens 500,
     no timeout option); failure becomes "Failed to generate quiz questions.".

The exported handler runs the four stages in sequence inside one try and
answers res.json with the six success fields, or res.status(500).json
with the first error message.

External effects (network responses, the random index draw) are passed in
as explicit oracle values in an Env record; each stage also returns the
list of outbound calls it issued, so claims about which calls happen (and
with which timeout) are statable.
-/

deriving instance DecidableEq for Except

namespace NewsAggregator

/-- Whitespace-stripping on a character list from both ends, the
embedding of the JS String.prototype.trim calls of the source. Written
structurally so concrete runs reduce inside the kernel. -/
def trimChars (l : List Char) : List Char :=
  ((l.dropWhile Char.isWhitespace).reverse.dropWhile Char.isWhitespace).reverse

/-- Embeds the JS call s.trim(). -/
def strTrim (s : String) : String :=
  ⟨trimChars s.data⟩

/-- Character-list matching from the front, used to embed the JS
String.prototype.includes test in the article filter. -/
def leadMatch : List Char → List Char → Bool
  | [], _ => true
  | _ :: _, [] => false
  | p :: ps, s :: ss => p == s && leadMatch ps ss

/-- Search for a pattern at every suffix of the character list. -/
def subSearch (pat : List Char) : List Char → Bool
  | [] => leadMatch pat []
  | c :: rest => leadMatch pat (c :: rest) || subSearch pat rest

/-- Embeds the JS call url.includes(pat). -/
def strIncludes (s pat : String) : Bool :=
  subSearch pat.data s.data

/-- Publication domain tested by the filter in the source. -/
def vergeDomain : String := "theverge.com"

/-- Bare homepage URL excluded by the filter in the source. -/
def bareHomepage : String := "https://www.theverge.com"

/-- One entry of the feed response articles array. Fields may be absent
(JS undefined), hence Option. -/
structure FeedArticle where
  url : Option String
  title : Option String
  description : Option String
deriving Repr, DecidableEq

/-- The feed response body: the articles array itself may be absent. -/
structure FeedResponse where
  articles : Option (List FeedArticle)
deriving Repr, DecidableEq

/-- The filter predicate of fetchArticleDetails:
article.url is truthy, includes the domain, and differs from the bare
homepage URL. A JS string is falsy exactly when empty. -/
def validFilter (a : FeedArticle) : Bool :=
  match a.url with
  | none => false
  | some u => !(u == "") && strIncludes u vergeDomain && !(u == bareHomepage)

/-- The value returned by fetchArticleDetails: url, headline, description
copied from the selected feed article. -/
structure ArticleDetails where
  url : Option String
  headline : Option String
  description : Option String
deriving Repr, DecidableEq

/-- Message of the throw raised when the filtered list is empty. -/
def noValidArticlesMsg : String := "No valid articles found."

/-- Message of the throw raised by the part_001 variant when the feed
articles array is empty, before filtering. -/
def noArticlesMsg : String := "No articles found from NewsAPI."

/-- Message of the catch-all wrap in fetchArticleDetails. -/
def fetchFailMsg : String := "Failed to fetch valid article details."

/-- Message of the catch-all wrap in summarizeArticle. -/
def summarizeFailMsg : String := "Failed to summarize article."

/-- Message of the catch-all wrap in convertSummaryToSpeech
(api handler variant). -/
def ttsFailMsg : String := "Failed to convert summary to speech."

/-- Message of the catch-all wrap in generateQuizQuestions. -/
def quizFailMsg : String := "Failed to generate quiz questions."

/-- Body of the try block of fetchArticleDetails in
src/api/process-article.js: filter the articles array, throw when the
filtered list is empty, else index it with the random draw. An absent
articles array raises a TypeError; an out-of-range index yields JS
undefined whose field access also raises a TypeError. Every error here is
caught and wrapped by fetchArticleDetails below. -/
def fetchInner (feedResult : Except String FeedResponse) (randomIndex : Nat) :
    Except String ArticleDetails :=
  match feedResult with
  | .error e => .error e
  | .ok resp =>
    match resp.articles with
    | none => .error "TypeError: cannot read articles.filter of undefined"
    | some arts =>
      let validArticles := arts.filter validFilter
      if validArticles.length == 0 then
        .error noValidArticlesMsg
      else
        match validArticles.get? randomIndex with
        | none => .error "TypeError: selected article is undefined"
        | some article => .ok ⟨article.url, article.title, article.description⟩

/-- fetchArticleDetails of src/api/process-article.js: the try body with
its catch, which rethrows every failure as fetchFailMsg. -/
def fetchArticleDetails (feedResult : Except String FeedResponse)
    (randomIndex : Nat) : Except String ArticleDetails :=
  match fetchInner feedResult randomIndex with
  | .ok v => .ok v
  | .error _ => .error fetchFailMsg

/-- Body of the try block of fetchArticleDetails in src/unnamed/part_001,
which additionally throws noArticlesMsg when the articles array is empty
before filtering. -/
def fetchInnerP1 (feedResult : Except String FeedResponse) (randomIndex : Nat) :
    Except String ArticleDetails :=
  match feedResult with
  | .error e => .error e
  | .ok resp =>
    match resp.articles with
    | none => .error "TypeError: cannot read articles.length of undefined"
    | some arts =>
      if arts.length == 0 then
        .error noArticlesMsg
      else
        let validArticles := arts.filter validFilter
        if validArticles.length == 0 then
          .error noValidArticlesMsg
        else
          match validArticles.get? randomIndex with
          | none => .error "TypeError: selected article is undefined"
          | some article => .ok ⟨article.url, article.title, article.description⟩

/-- fetchArticleDetails of src/unnamed/part_001: try body plus the same
catch-all wrap. -/
def fetchArticleDetailsP1 (feedResult : Except String FeedResponse)
    (randomIndex : Nat) : Except String ArticleDetails :=
  match fetchInnerP1 feedResult randomIndex with
  | .ok v => .ok v
  | .error _ => .error fetchFailMsg

/-- One outbound network call of the pipeline, with the timeout option the
source passes for it (none when the source passes no timeout option). -/
inductive ExtCall where
  | feedRequest (timeoutMs : Option Nat)
  | articleFetch (url : Option String) (timeoutMs : Option Nat)
  | lmCompletion (prompt : String) (maxTokens : Nat) (timeoutMs : Option Nat)
  | ttsRequest (text : String) (timeoutMs : Option Nat)
deriving Repr, DecidableEq

/-- The timeout option an outbound call carries. -/
def callTimeout : ExtCall → Option Nat
  | .feedRequest t => t
  | .articleFetch _ t => t
  | .lmCompletion _ _ t => t
  | .ttsRequest _ t => t

/-- The prompt summarizeArticle sends to the language model. -/
def summaryPrompt (articleText : String) : String :=
  "Please summarize the following article in detail: " ++ articleText

/-- The prompt generateQuizQuestions sends to the language model. -/
def quizPrompt (summary : String) : String :=
  "Based on the following summary: \"" ++ summary ++
    "\", please create 3 multiple-choice questions. Each question should have 4 answer options and indicate the correct answer."

/-- summarizeArticle of src/api/process-article.js. The article page is
fetched with an 8 s timeout; its observable content is the list of
paragraph texts the markup parser extracts. On fetch success the joined,
trimmed text is embedded in the summary prompt and the language model is
called with max_tokens 1000 and no timeout option; the oracle answer is
an error (call failed), ok none (content null, whose trim call throws), or
ok some content. Every failure in the try block is wrapped into
summarizeFailMsg. Returns the stage result and the outbound calls made. -/
def summarizeArticle (articleUrl : Option String)
    (pageResult : Except String (List String))
    (lmResult : Except String (Option String)) :
    Except String String × List ExtCall :=
  match pageResult with
  | .error _ => (.error summarizeFailMsg, [.articleFetch articleUrl (some 8000)])
  | .ok paragraphs =>
    let articleText := strTrim (String.join paragraphs)
    let calls : List ExtCall :=
      [.articleFetch articleUrl (some 8000),
       .lmCompletion (summaryPrompt articleText) 1000 none]
    match lmResult with
    | .error _ => (.error summarizeFailMsg, calls)
    | .ok none => (.error summarizeFailMsg, calls)
    | .ok (some content) => (.ok (strTrim content), calls)

/-- convertSummaryToSpeech of src/api/process-article.js: POST the summary
with an 8 s timeout; on success write output.mp3 and return that path; any
failure (non-2xx status, timeout) is wrapped into ttsFailMsg. -/
def convertSummaryToSpeech (summary : String)
    (ttsResult : Except String Unit) :
    Except String String × List ExtCall :=
  match ttsResult with
  | .error _ => (.error ttsFailMsg, [.ttsRequest summary (some 8000)])
  | .ok _ => (.ok "output.mp3", [.ttsRequest summary (some 8000)])

/-- generateQuizQuestions of src/api/process-article.js: one language
model call with max_tokens 500 and no timeout option; any failure is
wrapped into quizFailMsg; the trimmed content is returned. -/
def generateQuizQuestions (summary : String)
    (lmResult : Except String (Option String)) :
    Except String String × List ExtCall :=
  let calls : List ExtCall := [.lmCompletion (quizPrompt summary) 500 none]
  match lmResult with
  | .error _ => (.error quizFailMsg, calls)
  | .ok none => (.error quizFailMsg, calls)
  | .ok (some content) => (.ok (strTrim content), calls)

/-- Oracle for one request: the outcome of each outbound call and the
random index drawn by Math.floor of Math.random times the list length. -/
structure Env where
  feedResult : Except String FeedResponse
  randomIndex : Nat
  pageResult : Except String (List String)
  lmSummaryResult : Except String (Option String)
  ttsResult : Except String Unit
  lmQuizResult : Except String (Option String)

/-- The six success fields of the res.json response body. -/
structure SuccessBody where
  articleUrl : Option String
  headline : Option String
  description : Option String
  summary : String
  audioFile : String
  quizQuestions : String
deriving Repr, DecidableEq

/-- The HTTP response of the handler: res.json of the success body, or
res.status(status).json of an error message carrying no success field. -/
inductive HandlerResponse where
  | ok (body : SuccessBody)
  | err (status : Nat) (message : String)
deriving Repr, DecidableEq

/-- The HTTP status of a handler response (res.json defaults to 200). -/
def respStatus : HandlerResponse → Nat
  | .ok _ => 200
  | .err s _ => s

/-- The exported request handler of src/api/process-article.js: the four
stages awaited in sequence inside one try; the catch answers 500 with the
first error message. Also returns the outbound calls of the whole run.
The feed request itself is always issued, with the 8 s timeout of the api
variant, before its outcome is known. -/
def handleProcessArticle (env : Env) : HandlerResponse × List ExtCall :=
  let t1 : List ExtCall := [.feedRequest (some 8000)]
  match fetchArticleDetails env.feedResult env.randomIndex with
  | .error e => (.err 500 e, t1)
  | .ok details =>
    let s := summarizeArticle details.url env.pageResult env.lmSummaryResult
    match s.1 with
    | .error e => (.err 500 e, t1 ++ s.2)
    | .ok summary =>
      let a := convertSummaryToSpeech summary env.ttsResult
      match a.1 with
      | .error e => (.err 500 e, t1 ++ s.2 ++ a.2)
      | .ok audioFile =>
        let q := generateQuizQuestions summary env.lmQuizResult
        match q.1 with
        | .error e => (.err 500 e, t1 ++ s.2 ++ a.2 ++ q.2)
        | .ok quizQuestions =>
          (.ok ⟨details.url, details.headline, details.description,
                summary, audioFile, quizQuestions⟩,
           t1 ++ s.2 ++ a.2 ++ q.2)

/-- A genuine article entry such as the feed returns. -/
def sampleArticle : FeedArticle :=
  ⟨some "https://www.theverge.com/2024/1/1/some-article", some "T", some "D"⟩

/-- A feed entry whose url is the bare homepage, removed by the filter. -/
def homepageArticle : FeedArticle :=
  ⟨some "https://www.theverge.com", some "Home", some "HomeDesc"⟩

/-- An oracle under which every stage succeeds. -/
def sampleEnvOk : Env :=
  ⟨.ok ⟨some [sampleArticle]⟩, 0, .ok ["body text"],
   .ok (some "A summary."), .ok (), .ok (some "Q1")⟩

/-- An oracle under which the TTS call fails with a non-200 status. -/
def sampleEnvTtsFail : Env :=
  ⟨.ok ⟨some [sampleArticle]⟩, 0, .ok ["body text"],
   .ok (some "A summary."), .error "Request failed with status code 500",
   .ok (some "Q1")⟩

/-- Helper: an article accepted by the filter has a url that includes the
publication domain and differs from the bare homepage. -/
lemma validFilter_spec (a : FeedArticle) (h : validFilter a = true) :
    ∃ u, a.url = some u ∧ strIncludes u vergeDomain = true ∧ u ≠ bareHomepage := by
  unfold validFilter at h
  match ha : a.url with
  | none => rw [ha] at h; cases h
  | some u =>
    rw [ha] at h
    simp only [Bool.and_eq_true, Bool.not_eq_true', beq_eq_false_iff_ne] at h
    exact ⟨u, rfl, h.1.2, h.2⟩

/-- Helper: every failure of fetchArticleDetails surfaces as the single
wrapped message of its catch block. -/
lemma fetchArticleDetails_error_msg (fr : Except String FeedResponse)
    (idx : Nat) (e : String) (h : fetchArticleDetails fr idx = .error e) :
    e = fetchFailMsg := by
  unfold fetchArticleDetails at h
  cases hfi : fetchInner fr idx <;> rw [hfi] at h <;> simp_all

/-- Claim C1: whenever the feed yields at least one valid candidate and
the random draw is in range, the selected article has a url that includes
the publication domain and is not the bare homepage; and when exactly one
candidate survives filtering, that candidate is returned regardless of
the draw. -/
theorem selectedArticle_url_valid (arts : List FeedArticle) (idx : Nat)
    (hidx : idx < (arts.filter validFilter).length) :
    (∃ d u, fetchArticleDetails (Except.ok ⟨some arts⟩) idx = Except.ok d ∧
        d.url = some u ∧ strIncludes u vergeDomain = true ∧ u ≠ bareHomepage) ∧
    (∀ a, arts.filter validFilter = [a] →
        fetchArticleDetails (Except.ok ⟨some arts⟩) idx =
          Except.ok ⟨a.url, a.title, a.description⟩) := by
  have hlen : ((arts.filter validFilter).length == 0) = false := by
    simp only [beq_eq_false_iff_ne]
    omega
  obtain ⟨a, hget⟩ : ∃ a, (arts.filter validFilter).get? idx = some a :=
    ⟨_, List.get?_eq_get hidx⟩
  rw [List.get?_eq_getElem?] at hget
  constructor
  · have hmem : a ∈ arts.filter validFilter := List.getElem?_mem hget
    obtain ⟨u, hu, hinc, hne⟩ := validFilter_spec a (List.mem_filter.mp hmem).2
    refine ⟨⟨a.url, a.title, a.description⟩, u, ?_, hu, hinc, hne⟩
    unfold fetchArticleDetails fetchInner
    simp [hlen, hget]
  · intro b hb
    have hz : idx = 0 := by rw [hb] at hidx; simpa using hidx
    subst hz
    unfold fetchArticleDetails fetchInner
    simp [hb]

/-- Witness for C1 at the feed of the spec scenario: one homepage entry
and one genuine article; the genuine article is selected. -/
theorem selectedArticle_url_valid_witness :
    fetchArticleDetails (Except.ok ⟨some [homepageArticle, sampleArticle]⟩) 0 =
      Except.ok ⟨sampleArticle.url, sampleArticle.title, sampleArticle.description⟩ :=
  (selectedArticle_url_valid [homepageArticle, sampleArticle] 0 (by decide)).2
    sampleArticle (by decide)

/-- Helper: every failure of summarizeArticle surfaces as the single
wrapped message of its catch block. -/
lemma summarizeArticle_error_msg (url : Option String)
    (pr : Except String (List String)) (lr : Except String (Option String))
    (e : String) (h : (summarizeArticle url pr lr).1 = .error e) :
    e = summarizeFailMsg := by
  unfold summarizeArticle at h
  rcases pr with e' | paras
  · simp_all
  · rcases lr with e' | oc
    · simp_all
    · rcases oc with _ | c <;> simp_all

/-- Helper: every failure of convertSummaryToSpeech surfaces as the
single wrapped message of its catch block. -/
lemma convertSummaryToSpeech_error_msg (s : String) (tr : Except String Unit)
    (e : String) (h : (convertSummaryToSpeech s tr).1 = .error e) :
    e = ttsFailMsg := by
  unfold convertSummaryToSpeech at h
  rcases tr with e' | u <;> simp_all

/-- Helper: every failure of generateQuizQuestions surfaces as the single
wrapped message of its catch block. -/
lemma generateQuizQuestions_error_msg (s : String)
    (lr : Except String (Option String)) (e : String)
    (h : (generateQuizQuestions s lr).1 = .error e) :
    e = quizFailMsg := by
  unfold generateQuizQuestions at h
  rcases lr with e' | oc
  · simp_all
  · rcases oc with _ | c <;> simp_all

/-- Helper: the handler answers with the full success body or with a 500
carrying the failure message of the first failing stage. -/
lemma handler_shape (env : Env) :
    (∃ b, (handleProcessArticle env).1 = HandlerResponse.ok b) ∨
    (∃ m, (handleProcessArticle env).1 = HandlerResponse.err 500 m ∧
      (m = fetchFailMsg ∨ m = summarizeFailMsg ∨ m = ttsFailMsg ∨
        m = quizFailMsg)) := by
  unfold handleProcessArticle
  rcases hf : fetchArticleDetails env.feedResult env.randomIndex with e | details
  · exact Or.inr ⟨e, by simp, Or.inl (fetchArticleDetails_error_msg _ _ _ hf)⟩
  · rcases hs : (summarizeArticle details.url env.pageResult env.lmSummaryResult).1
      with e | summary
    · exact Or.inr ⟨e, by simp [hs],
        Or.inr (Or.inl (summarizeArticle_error_msg _ _ _ _ hs))⟩
    · rcases ha : (convertSummaryToSpeech summary env.ttsResult).1
        with e | audioFile
      · exact Or.inr ⟨e, by simp [hs, ha],
          Or.inr (Or.inr (Or.inl (convertSummaryToSpeech_error_msg _ _ _ ha)))⟩
      · rcases hq : (generateQuizQuestions summary env.lmQuizResult).1
          with e | quizQuestions
        · exact Or.inr ⟨e, by simp [hs, ha, hq],
            Or.inr (Or.inr (Or.inr (generateQuizQuestions_error_msg _ _ _ hq)))⟩
        · refine Or.inl ⟨⟨details.url, details.headline, details.description,
            summary, audioFile, quizQuestions⟩, ?_⟩
          simp [hs, ha, hq]

/-- Claim C2: the four stages run in sequence and the response is
all-or-nothing: either the success body with all six fields, or a single
500 response carrying exactly the failing stage's message and, by the
shape of HandlerResponse.err, none of the success fields. -/
theorem pipeline_all_or_nothing (env : Env) :
    (∃ b, (handleProcessArticle env).1 = HandlerResponse.ok b) ∨
    (∃ m, (handleProcessArticle env).1 = HandlerResponse.err 500 m ∧
      (m = fetchFailMsg ∨ m = summarizeFailMsg ∨ m = ttsFailMsg ∨
        m = quizFailMsg)) :=
  handler_shape env

/-- Claim C10: the handler is total over provider response shapes: every
run, including one whose feed body has no articles array at all, yields
either the 200 success JSON or a 500 error response. -/
theorem handler_total (env : Env) :
    respStatus (handleProcessArticle env).1 = 200 ∨
    respStatus (handleProcessArticle env).1 = 500 := by
  rcases handler_shape env with ⟨b, hb⟩ | ⟨m, hm, _⟩
  · exact Or.inl (by rw [hb]; rfl)
  · exact Or.inr (by rw [hm]; rfl)

/-- Counterexample to claim C3: the empty feed and the all-homepage feed
surface the very same error message, because the throw sits inside the
try block and the catch wraps every failure into fetchFailMsg; the two
failure causes are not distinguishable in the surfaced error. -/
theorem selection_errors_counterexample :
    fetchArticleDetails (Except.ok ⟨some ([] : List FeedArticle)⟩) 0 =
      Except.error fetchFailMsg ∧
    fetchArticleDetails (Except.ok ⟨some [homepageArticle]⟩) 0 =
      Except.error fetchFailMsg := by
  decide

/-- Claim C3 as amended: inside the try block the part_001 variant does
distinguish the empty feed (noArticlesMsg) from a feed whose every entry
is filtered away (noValidArticlesMsg), while the api variant raises
noValidArticlesMsg in both cases; but in both variants the catch wraps
either failure into the single surfaced message fetchFailMsg, so the two
causes are not distinguishable in the surfaced error. -/
theorem selection_errors_amended (arts : List FeedArticle) (idx : Nat)
    (hne : arts ≠ []) (hfil : arts.filter validFilter = []) :
    fetchInner (Except.ok ⟨some arts⟩) idx = Except.error noValidArticlesMsg ∧
    fetchInner (Except.ok ⟨some ([] : List FeedArticle)⟩) idx =
      Except.error noValidArticlesMsg ∧
    fetchInnerP1 (Except.ok ⟨some arts⟩) idx =
      Except.error noValidArticlesMsg ∧
    fetchInnerP1 (Except.ok ⟨some ([] : List FeedArticle)⟩) idx =
      Except.error noArticlesMsg ∧
    fetchArticleDetails (Except.ok ⟨some arts⟩) idx =
      Except.error fetchFailMsg ∧
    fetchArticleDetailsP1 (Except.ok ⟨some arts⟩) idx =
      Except.error fetchFailMsg ∧
    fetchArticleDetailsP1 (Except.ok ⟨some ([] : List FeedArticle)⟩) idx =
      Except.error fetchFailMsg := by
  have hlen : (arts.length == 0) = false := by
    simp only [beq_eq_false_iff_ne]
    exact fun h => hne (List.eq_nil_of_length_eq_zero h)
  refine ⟨?_, by simp [fetchInner], ?_, by simp [fetchInnerP1], ?_, ?_,
    by simp [fetchArticleDetailsP1, fetchInnerP1]⟩
  · unfold fetchInner
    simp [hfil]
  · unfold fetchInnerP1
    simp [hlen, hfil]
  · unfold fetchArticleDetails fetchInner
    simp [hfil]
  · unfold fetchArticleDetailsP1 fetchInnerP1
    simp [hlen, hfil]

/-- Witness for the amended C3 at the singleton all-homepage feed. -/
theorem selection_errors_amended_witness :
    fetchInnerP1 (Except.ok ⟨some [homepageArticle]⟩) 0 =
      Except.error noValidArticlesMsg ∧
    fetchArticleDetailsP1 (Except.ok ⟨some [homepageArticle]⟩) 0 =
      Except.error fetchFailMsg :=
  ⟨(selection_errors_amended [homepageArticle] 0 (by decide) (by decide)).2.2.1,
   (selection_errors_amended [homepageArticle] 0 (by decide) (by decide)).2.2.2.2.2.1⟩

/-- Counterexample to claim C4: a run where the article-page fetch fails
and a run where the fetch succeeds but the language-model call fails
produce the very same error, so the fetch failure is not distinct from
the language-model failure in summarizeArticle. -/
theorem summarize_fetch_error_counterexample :
    (summarizeArticle (some "https://www.theverge.com/a")
        (Except.error "timeout of 8000ms exceeded")
        (Except.ok (some "S"))).1 = Except.error summarizeFailMsg ∧
    (summarizeArticle (some "https://www.theverge.com/a")
        (Except.ok ["text"])
        (Except.error "model failure")).1 = Except.error summarizeFailMsg := by
  decide

/-- Claim C4 as amended: when the article-page fetch times out or returns
a non-success status, summarize fails with the generic wrapped message
summarizeFailMsg, the same message a language-model failure produces, and
no language-model call is attempted: the only outbound call of the stage
is the article fetch. -/
theorem summarize_fetch_error_amended (url : Option String) (e : String)
    (lr : Except String (Option String)) :
    (summarizeArticle url (Except.error e) lr).1 =
      Except.error summarizeFailMsg ∧
    (summarizeArticle url (Except.error e) lr).2 =
      [ExtCall.articleFetch url (some 8000)] := by
  exact ⟨rfl, rfl⟩

/-- Counterexample to claim C5: a successful language-model call whose
content is the empty string is returned as a valid empty Summary; the
code performs no emptiness check. -/
theorem summarize_empty_result_counterexample :
    (summarizeArticle (some "https://www.theverge.com/a")
        (Except.ok ["text"]) (Except.ok (some ""))).1 = Except.ok "" := by
  decide

/-- Claim C5 as amended: summarize fails with summarizeFailMsg whenever
the language-model call fails (or its content is null, whose trim call
throws); but a successful call returning empty content yields the empty
string as the Summary rather than an error. -/
theorem summarize_empty_result_amended (url : Option String)
    (paras : List String) (e : String) :
    (summarizeArticle url (Except.ok paras) (Except.error e)).1 =
      Except.error summarizeFailMsg ∧
    (summarizeArticle url (Except.ok paras) (Except.ok none)).1 =
      Except.error summarizeFailMsg ∧
    (summarizeArticle url (Except.ok paras) (Except.ok (some ""))).1 =
      Except.ok "" := by
  exact ⟨rfl, rfl, rfl⟩

/-- Helper: the outbound calls of summarizeArticle are the article fetch
alone (fetch failed) or the article fetch followed by one language-model
call with max_tokens 1000 and no timeout option. -/
lemma summarizeArticle_calls_shape (url : Option String)
    (pr : Except String (List String)) (lr : Except String (Option String)) :
    (summarizeArticle url pr lr).2 = [ExtCall.articleFetch url (some 8000)] ∨
    ∃ txt, (summarizeArticle url pr lr).2 =
      [ExtCall.articleFetch url (some 8000),
       ExtCall.lmCompletion (summaryPrompt txt) 1000 none] := by
  rcases pr with e | paras
  · exact Or.inl rfl
  · refine Or.inr ⟨strTrim (String.join paras), ?_⟩
    rcases lr with e | oc
    · rfl
    · rcases oc with _ | c <;> rfl

/-- Helper: the only outbound call of convertSummaryToSpeech is the TTS
request with its 8 s timeout. -/
lemma convertSummaryToSpeech_calls (s : String) (tr : Except String Unit) :
    (convertSummaryToSpeech s tr).2 = [ExtCall.ttsRequest s (some 8000)] := by
  cases tr <;> rfl

/-- Helper: the only outbound call of generateQuizQuestions is the
language-model call with max_tokens 500 and no timeout option. -/
lemma generateQuizQuestions_calls (s : String)
    (lr : Except String (Option String)) :
    (generateQuizQuestions s lr).2 =
      [ExtCall.lmCompletion (quizPrompt s) 500 none] := by
  rcases lr with e | oc
  · rfl
  · rcases oc with _ | c <;> rfl

/-- Claim C6: when article selection and summarization succeed and the
text-to-speech call fails, the response is a 500 carrying ttsFailMsg, the
run stops after the TTS request, and no quiz-generation language-model
call (the one with max_tokens 500) occurs. -/
theorem synthesis_failure_no_quiz (env : Env) (d : ArticleDetails) (s e : String)
    (hf : fetchArticleDetails env.feedResult env.randomIndex = Except.ok d)
    (hs : (summarizeArticle d.url env.pageResult env.lmSummaryResult).1 =
      Except.ok s)
    (ht : env.ttsResult = Except.error e) :
    (handleProcessArticle env).1 = HandlerResponse.err 500 ttsFailMsg ∧
    (handleProcessArticle env).2 =
      ExtCall.feedRequest (some 8000) ::
        ((summarizeArticle d.url env.pageResult env.lmSummaryResult).2 ++
          [ExtCall.ttsRequest s (some 8000)]) ∧
    ∀ p t, ExtCall.lmCompletion p 500 t ∉ (handleProcessArticle env).2 := by
  have hres : handleProcessArticle env =
      (HandlerResponse.err 500 ttsFailMsg,
       ExtCall.feedRequest (some 8000) ::
         ((summarizeArticle d.url env.pageResult env.lmSummaryResult).2 ++
           [ExtCall.ttsRequest s (some 8000)])) := by
    unfold handleProcessArticle
    rw [hf]
    simp [hs, convertSummaryToSpeech, ht]
  refine ⟨by rw [hres], by rw [hres], ?_⟩
  intro p t hmem
  rw [hres] at hmem
  simp only [List.mem_cons, List.mem_append, List.mem_singleton] at hmem
  rcases summarizeArticle_calls_shape d.url env.pageResult env.lmSummaryResult
    with hsh | ⟨txt, hsh⟩ <;> rw [hsh] at hmem <;> simp_all

/-- Witness for C6 at a concrete run whose TTS call fails. -/
theorem synthesis_failure_no_quiz_witness :
    (handleProcessArticle sampleEnvTtsFail).1 =
      HandlerResponse.err 500 ttsFailMsg :=
  (synthesis_failure_no_quiz sampleEnvTtsFail
      ⟨sampleArticle.url, sampleArticle.title, sampleArticle.description⟩
      "A summary." "Request failed with status code 500"
      (by decide) (by decide) (by decide)).1

/-- Helper: every outbound call of a run is the feed request, the article
fetch or the TTS request (each with the 8 s timeout), or one of the two
language-model calls (max_tokens 1000 or 500, no timeout option). -/
lemma handler_trace_calls (env : Env) (c : ExtCall)
    (hc : c ∈ (handleProcessArticle env).2) :
    c = ExtCall.feedRequest (some 8000) ∨
    (∃ u, c = ExtCall.articleFetch u (some 8000)) ∨
    (∃ p, c = ExtCall.lmCompletion p 1000 none) ∨
    (∃ s, c = ExtCall.ttsRequest s (some 8000)) ∨
    (∃ p, c = ExtCall.lmCompletion p 500 none) := by
  have hmem2 : ∀ url pr lr x, x ∈ (summarizeArticle url pr lr).2 →
      (∃ u, x = ExtCall.articleFetch u (some 8000)) ∨
      (∃ p, x = ExtCall.lmCompletion p 1000 none) := by
    intro url pr lr x hx
    rcases summarizeArticle_calls_shape url pr lr with h2 | ⟨txt, h2⟩ <;>
      rw [h2] at hx <;> simp at hx
    · exact Or.inl ⟨url, hx⟩
    · rcases hx with hx | hx
      · exact Or.inl ⟨url, hx⟩
      · exact Or.inr ⟨summaryPrompt txt, hx⟩
  rcases hf : fetchArticleDetails env.feedResult env.randomIndex with e | details
  · have htr : (handleProcessArticle env).2 = [ExtCall.feedRequest (some 8000)] := by
      unfold handleProcessArticle
      rw [hf]
    rw [htr] at hc
    simp at hc
    exact Or.inl hc
  · rcases hs : (summarizeArticle details.url env.pageResult env.lmSummaryResult).1
      with e | summary
    · have htr : (handleProcessArticle env).2 =
          ExtCall.feedRequest (some 8000) ::
            (summarizeArticle details.url env.pageResult env.lmSummaryResult).2 := by
        unfold handleProcessArticle
        rw [hf]
        simp [hs]
      rw [htr] at hc
      simp only [List.mem_cons] at hc
      rcases hc with hc | hc
      · exact Or.inl hc
      · rcases hmem2 _ _ _ c hc with h | h
        · exact Or.inr (Or.inl h)
        · exact Or.inr (Or.inr (Or.inl h))
    · rcases ha : (convertSummaryToSpeech summary env.ttsResult).1
        with e | audioFile
      · have htr : (handleProcessArticle env).2 =
            ExtCall.feedRequest (some 8000) ::
              ((summarizeArticle details.url env.pageResult env.lmSummaryResult).2 ++
                [ExtCall.ttsRequest summary (some 8000)]) := by
          unfold handleProcessArticle
          rw [hf]
          simp [hs, ha, convertSummaryToSpeech_calls]
        rw [htr] at hc
        simp only [List.mem_cons, List.mem_append, List.mem_singleton,
          List.not_mem_nil, or_false] at hc
        rcases hc with hc | hc | hc
        · exact Or.inl hc
        · rcases hmem2 _ _ _ c hc with h | h
          · exact Or.inr (Or.inl h)
          · exact Or.inr (Or.inr (Or.inl h))
        · exact Or.inr (Or.inr (Or.inr (Or.inl ⟨summary, hc⟩)))
      · have htr : (handleProcessArticle env).2 =
            ExtCall.feedRequest (some 8000) ::
              ((summarizeArticle details.url env.pageResult env.lmSummaryResult).2 ++
                ([ExtCall.ttsRequest summary (some 8000)] ++
                  [ExtCall.lmCompletion (quizPrompt summary) 500 none])) := by
          rcases hqz : (generateQuizQuestions summary env.lmQuizResult).1
            with e | quizQuestions <;>
          · unfold handleProcessArticle
            rw [hf]
            simp [hs, ha, hqz, convertSummaryToSpeech_calls,
              generateQuizQuestions_calls]
        rw [htr] at hc
        simp only [List.mem_cons, List.mem_append, List.mem_singleton,
          List.not_mem_nil, or_false] at hc
        rcases hc with hc | hc | hc | hc
        · exact Or.inl hc
        · rcases hmem2 _ _ _ c hc with h | h
          · exact Or.inr (Or.inl h)
          · exact Or.inr (Or.inr (Or.inl h))
        · exact Or.inr (Or.inr (Or.inr (Or.inl ⟨summary, hc⟩)))
        · exact Or.inr (Or.inr (Or.inr (Or.inr ⟨quizPrompt summary, hc⟩)))

/-- Counterexample to claim C7: in a run where every stage succeeds, the
summarization language-model call is an outbound call that carries no
timeout option at all, so not every outbound call carries the 8 s
timeout. -/
theorem outbound_timeouts_counterexample :
    ExtCall.lmCompletion (summaryPrompt "body text") 1000 none ∈
      (handleProcessArticle sampleEnvOk).2 ∧
    callTimeout (ExtCall.lmCompletion (summaryPrompt "body text") 1000 none) ≠
      some 8000 := by
  decide

/-- Claim C7 as amended: every outbound call of the api handler either
carries the 8 s timeout (feed request, article fetch, TTS request) or is
a language-model completion call, which carries no timeout option. -/
theorem outbound_timeouts_amended (env : Env) (c : ExtCall)
    (hc : c ∈ (handleProcessArticle env).2) :
    callTimeout c = some 8000 ∨ ∃ p m, c = ExtCall.lmCompletion p m none := by
  rcases handler_trace_calls env c hc with h | ⟨u, h⟩ | ⟨p, h⟩ | ⟨s, h⟩ | ⟨p, h⟩ <;>
    subst h
  · exact Or.inl rfl
  · exact Or.inl rfl
  · exact Or.inr ⟨p, 1000, rfl⟩
  · exact Or.inl rfl
  · exact Or.inr ⟨p, 500, rfl⟩

/-- Witness for the amended C7 at the feed request of a concrete run. -/
theorem outbound_timeouts_amended_witness :
    callTimeout (ExtCall.feedRequest (some 8000)) = some 8000 ∨
    ∃ p m, ExtCall.feedRequest (some 8000) = ExtCall.lmCompletion p m none :=
  outbound_timeouts_amended sampleEnvOk (ExtCall.feedRequest (some 8000))
    (by decide)

/-- Claim C8: when paragraph extraction yields empty text, summarize does
not fail: the language model is still called, with the empty-body prompt,
and a successful model answer is returned as the Summary as usual. -/
theorem empty_extraction_not_an_error (url : Option String)
    (paras : List String) (lr : Except String (Option String))
    (hempty : strTrim (String.join paras) = "") :
    (summarizeArticle url (Except.ok paras) lr).2 =
      [ExtCall.articleFetch url (some 8000),
       ExtCall.lmCompletion (summaryPrompt "") 1000 none] ∧
    ∀ c, lr = Except.ok (some c) →
      (summarizeArticle url (Except.ok paras) lr).1 = Except.ok (strTrim c) := by
  constructor
  · rcases lr with e | oc
    · simp [summarizeArticle, hempty]
    · rcases oc with _ | c <;> simp [summarizeArticle, hempty]
  · rintro c rfl
    simp [summarizeArticle]

/-- Witness for C8 at a page whose single paragraph is empty. -/
theorem empty_extraction_not_an_error_witness :
    (summarizeArticle (some "https://www.theverge.com/a") (Except.ok [""])
        (Except.ok (some "degenerate"))).2 =
      [ExtCall.articleFetch (some "https://www.theverge.com/a") (some 8000),
       ExtCall.lmCompletion (summaryPrompt "") 1000 none] ∧
    (summarizeArticle (some "https://www.theverge.com/a") (Except.ok [""])
        (Except.ok (some "degenerate"))).1 = Except.ok (strTrim "degenerate") := by
  obtain ⟨h1, h2⟩ := empty_extraction_not_an_error
    (some "https://www.theverge.com/a") [""]
    (Except.ok (some "degenerate")) (by decide)
  exact ⟨h1, h2 "degenerate" rfl⟩

/-- Claim C9: selection is a deterministic function of the filtered
candidate list and the injected random index: two feeds with the same
filtered list and the same draw select the same article. -/
theorem selection_deterministic (arts1 arts2 : List FeedArticle) (idx : Nat)
    (h : arts1.filter validFilter = arts2.filter validFilter) :
    fetchArticleDetails (Except.ok ⟨some arts1⟩) idx =
      fetchArticleDetails (Except.ok ⟨some arts2⟩) idx := by
  unfold fetchArticleDetails fetchInner
  simp only [h]

/-- Witness for C9: two different feeds with the same filtered list give
the same selection. -/
theorem selection_deterministic_witness :
    fetchArticleDetails (Except.ok ⟨some [homepageArticle, sampleArticle]⟩) 0 =
      fetchArticleDetails (Except.ok ⟨some [sampleArticle]⟩) 0 :=
  selection_deterministic [homepageArticle, sampleArticle] [sampleArticle] 0
    (by decide)

end NewsAggregator
